import Mathlib

/-!
Shallow embedding of the `web_scraper` repository (src/main.py, src/models.py,
src/helper.py) for verifying the claims of its natural-language specification.

Modelling conventions:
* Python dict keys that may be absent are modelled with `Option`; a key that the
  code tests for truthiness (`if "positions" in profile and profile["positions"]`)
  can additionally be present with value `None`, so those fields get the type
  `Option (Option (List _))` (absent / present-as-None / present-as-list).
* The remote Apify collaborators (actor call, dataset client) are external to the
  repository; they enter the model as explicit parameters: the backing dataset is
  a finite list, a page read at `offset`/`limit` returns
  `(ds.drop offset).take limit`, and transient per-request failures are a
  `fail : Nat → Bool` oracle on the requested offset (the code turns a caught
  `ApifyApiError` into an empty page).
* Uncaught Python exceptions are modelled with `Except PyErr`; the `while True`
  pagination loop, which Python does not bound, is modelled with explicit fuel
  (`none` = fuel exhausted, i.e. the loop has not terminated within that bound).
-/

/-- Uncaught Python exception kinds relevant to this program. -/
inductive PyErr where
  | typeError
  | attributeError
  | unboundLocalError
  deriving DecidableEq, Repr

/-! ## LinkedIn data model (src/models.py) -/

/-- One element of a raw `positions` list: a dict read with
`.get("title", "")` and `.get("companyName", "")`. -/
structure RawPosition where
  title : Option String
  companyName : Option String
  deriving DecidableEq, Repr

/-- One element of a raw `educations` list, read with `.get("schoolName", "")`. -/
structure RawEducation where
  schoolName : Option String
  deriving DecidableEq, Repr

/-- A raw LinkedIn API record as consumed by `LinkedInProfile.from_api_response`.
`positions`/`educations` use the three-state encoding because the code tests them
for presence and truthiness. -/
structure RawLinkedInProfile where
  firstName : Option String
  lastName : Option String
  occupation : Option String
  geoLocationName : Option String
  connectionsCount : Option Int
  positions : Option (Option (List RawPosition))
  educations : Option (Option (List RawEducation))
  deriving DecidableEq, Repr

/-- The normalized LinkedIn record (dataclass `LinkedInProfile`). -/
structure LinkedInProfile where
  name : String
  position : String
  company : String
  location : String
  connections : Int
  education : String
  deriving DecidableEq, Repr

/-- `LinkedInProfile._get_position`: if `"positions" in profile and
profile["positions"]` (present and truthy, i.e. a non-empty list), take
`positions[0].get("title", "")`; otherwise fall back to
`profile.get("occupation", "")`. -/
def LinkedInProfile.get_position (profile : RawLinkedInProfile) : String :=
  match profile.positions with
  | some (some (p :: _)) => p.title.getD ""
  | _ => profile.occupation.getD ""

/-- `LinkedInProfile._get_company`: if `positions` is present and a non-empty
list, take `positions[0].get("companyName", "")`; otherwise `""`. -/
def LinkedInProfile.get_company (profile : RawLinkedInProfile) : String :=
  match profile.positions with
  | some (some (p :: _)) => p.companyName.getD ""
  | _ => ""

/-- `LinkedInProfile._get_education`: if `educations` is present and a non-empty
list, take `educations[0].get("schoolName", "")`; otherwise `""`. -/
def LinkedInProfile.get_education (profile : RawLinkedInProfile) : String :=
  match profile.educations with
  | some (some (e :: _)) => e.schoolName.getD ""
  | _ => ""

/-- `LinkedInProfile.from_api_response` (src/models.py lines 15-25). -/
def LinkedInProfile.from_api_response (profile : RawLinkedInProfile) : LinkedInProfile :=
  { name := (profile.firstName.getD "" ++ " " ++ profile.lastName.getD "").trim
    position := LinkedInProfile.get_position profile
    company := LinkedInProfile.get_company profile
    location := profile.geoLocationName.getD ""
    connections := profile.connectionsCount.getD 0
    education := LinkedInProfile.get_education profile }

/-! ## Job launcher (LinkedinWebScraper.__init__, src/main.py lines 27-56) -/

/-- The parsed configuration `{actor_name, actor_input}`; `none` models the
state after `get_actor_config` raised and the handler set `config = None`. -/
structure ActorConfig where
  actor_name : String
  deriving DecidableEq, Repr

/-- Behaviour of the remote `apify_client.actor(...).call(...)`: either a run
object with a `defaultDatasetId`, or an `ApifyApiError` (with a rate-limit
flag for the 429 case). -/
inductive ApifyCallResult where
  | ok (defaultDatasetId : String)
  | apiError (rateLimit : Bool)
  deriving DecidableEq, Repr

/-- The actor-launch part of `LinkedinWebScraper.__init__`: evaluates
`config["actor_name"]` (a `TypeError` escapes when `config` is `None`, since
only `ApifyApiError` is caught), runs the actor, and on `ApifyApiError` sets
`actor_call = None`.  Returns the resulting `dataset_client`: `some datasetId`
when `actor_call` is truthy, `none` otherwise. -/
def launchActor (config : Option ActorConfig) (call : ApifyCallResult) :
    Except PyErr (Option String) :=
  match config with
  | none => .error .typeError
  | some _ =>
    match call with
    | .ok datasetId => .ok (some datasetId)
    | .apiError _ => .ok none

/-! ## Paginator (src/main.py lines 58-97) -/

/-- A successful ranged read of the backing dataset, with per-request transient
failures: a request whose offset satisfies `fail` raises `ApifyApiError`, which
`get_profiles_page` catches and turns into `[]`. -/
def fetchPage (ds : List α) (fail : Nat → Bool) (offset limit : Nat) : List α :=
  if fail offset then [] else (ds.drop offset).take limit

/-- `get_profiles_page`: `self.dataset_client.list_items(offset, limit).items`
with `except ApifyApiError: return []`.  When `dataset_client` is `None`
(failed launch), the attribute access on `None` raises `AttributeError`,
which the `except ApifyApiError` clause does not catch. -/
def get_profiles_page (dc : Option (List α)) (fail : Nat → Bool)
    (offset limit : Nat) : Except PyErr (List α) :=
  match dc with
  | none => .error .attributeError
  | some ds => .ok (fetchPage ds fail offset limit)

/-- The `while True` loop of `get_all_profiles`, with fuel.  Accumulates pages
and counts page requests; stops on the first empty page.  `none` means the
fuel bound was reached before the loop terminated. -/
def getAllProfilesAux (dc : Option (List α)) (fail : Nat → Bool) (pageSize : Nat) :
    Nat → Nat → List α → Nat → Option (Except PyErr (List α × Nat))
  | 0, _, _, _ => none
  | fuel + 1, offset, acc, reqs =>
    match get_profiles_page dc fail offset pageSize with
    | .error e => some (.error e)
    | .ok page =>
      if page.isEmpty then some (.ok (acc, reqs + 1))
      else getAllProfilesAux dc fail pageSize fuel (offset + pageSize) (acc ++ page) (reqs + 1)

/-- `get_all_profiles` (src/main.py lines 66-84): start at offset 0 with an
empty accumulator; the second component of the result counts page requests. -/
def get_all_profiles (dc : Option (List α)) (fail : Nat → Bool)
    (pageSize fuel : Nat) : Option (Except PyErr (List α × Nat)) :=
  getAllProfilesAux dc fail pageSize fuel 0 [] 0

/-! ## LinkedIn JSON exporter (get_formatted_results, src/main.py lines 86-97) -/

/-- String escaping as done by `json.dumps` for the common characters
(backslash, quote, newline, tab, carriage return; `\uXXXX` escaping of other
control and non-ASCII characters is not modelled). -/
def jsonEscape (s : String) : String :=
  String.join (s.data.map fun c =>
    if c = '\\' then "\\\\"
    else if c = '"' then "\\\""
    else if c = '\n' then "\\n"
    else if c = '\t' then "\\t"
    else if c = '\r' then "\\r"
    else String.singleton c)

/-- `json.dumps(profile.__dict__, indent=2)` layout for one profile dict,
fields in dataclass declaration order, as it appears nested in the list. -/
def profileJson (p : LinkedInProfile) : String :=
  "\x7b\n    \"name\": \"" ++ jsonEscape p.name ++
  "\",\n    \"position\": \"" ++ jsonEscape p.position ++
  "\",\n    \"company\": \"" ++ jsonEscape p.company ++
  "\",\n    \"location\": \"" ++ jsonEscape p.location ++
  "\",\n    \"connections\": " ++ toString p.connections ++
  ",\n    \"education\": \"" ++ jsonEscape p.education ++ "\"\n  \x7d"

/-- `json.dumps(formatted_profiles, indent=2)`: `"[]"` for the empty list. -/
def profilesJson (profiles : List LinkedInProfile) : String :=
  if profiles.isEmpty then "[]"
  else "[\n  " ++ String.intercalate ",\n  " (profiles.map profileJson) ++ "\n]"

/-- `get_formatted_results` (src/main.py lines 86-97): paginate, normalize each
raw profile with `from_api_response`, serialize to JSON.  Exceptions from the
pagination step propagate. -/
def get_formatted_results (dc : Option (List RawLinkedInProfile))
    (fail : Nat → Bool) (pageSize fuel : Nat) : Option (Except PyErr String) :=
  match get_all_profiles dc fail pageSize fuel with
  | none => none
  | some (.error e) => some (.error e)
  | some (.ok (profiles, _)) =>
      some (.ok (profilesJson (profiles.map LinkedInProfile.from_api_response)))

/-! ## GitHub data model and flat fetcher (src/main.py lines 137-258) -/

/-- A GitHub API user response body as consumed on the success path:
`data["login"]`, `data["public_repos"]`, `data["followers"]` are required
(a 200 response missing them fails hard, outside the claims' scope);
`data.get("name")` and `data.get("bio")` are optional/nullable. -/
structure RawGitHubUser where
  login : String
  name : Option String
  bio : Option String
  public_repos : Nat
  followers : Nat
  deriving DecidableEq, Repr

/-- The normalized GitHub record (dataclass `GitHubProfile`);
`full_name`/`bio` keep the nullable state. -/
structure GitHubProfile where
  username : String
  full_name : Option String
  bio : Option String
  public_repos : Nat
  followers : Nat
  deriving DecidableEq, Repr

/-- What one `requests.get` against `BASE_URL/{username}` does: either the
transport layer raises (`conn`: a `requests` exception before `response` is
assigned), or a response with a status code and a parsed JSON body is
obtained (for an error status the body is unused by the code). -/
inductive FetchOutcome where
  | conn
  | resp (status : Nat) (data : RawGitHubUser)
  deriving DecidableEq, Repr

/-- The loop body of `GitHubWebScraper.fetch_profiles` over the per-username
outcomes.  `bound` is the current value of the function-local variable
`response` (its status code), `none` while it has never been assigned.
On a caught `requests` exception the handler reads `response.status_code`:
if `response` was never assigned this raises `UnboundLocalError`, which is
not caught; otherwise the identifier is logged and skipped.  An error status
from `raise_for_status` (4xx/5xx) is caught and the identifier skipped; a
success status appends the normalized profile. -/
def fetchProfilesAux : List FetchOutcome → Option Nat → List GitHubProfile →
    Except PyErr (List GitHubProfile)
  | [], _, acc => .ok acc
  | .conn :: rest, bound, acc =>
    match bound with
    | none => .error .unboundLocalError
    | some s => fetchProfilesAux rest (some s) acc
  | .resp status data :: rest, _, acc =>
    if 400 ≤ status ∧ status < 600 then
      fetchProfilesAux rest (some status) acc
    else
      fetchProfilesAux rest (some status)
        (acc ++ [{ username := data.login, full_name := data.name, bio := data.bio,
                   public_repos := data.public_repos, followers := data.followers }])

/-- `GitHubWebScraper.fetch_profiles` (src/main.py lines 179-206): `response`
starts unbound, `github_profiles` starts empty. -/
def fetch_profiles (outcomes : List FetchOutcome) : Except PyErr (List GitHubProfile) :=
  fetchProfilesAux outcomes none []

/-! ## GitHub CSV exporter (GitHubWebScraper.save_results, src/main.py 223-258) -/

/-- Minimal-quoting CSV field rendering as done by Python's `csv` writer:
a field containing a delimiter, quote char or line break is quoted, with
embedded quotes doubled (both computed over the character list). -/
def csvField (s : String) : String :=
  if s.data.any (fun c => c = ',' || c = '"' || c = '\n' || c = '\r') then
    "\"" ++ String.join (s.data.map fun c => if c = '"' then "\"\"" else String.singleton c) ++ "\""
  else s

/-- The fixed header of `save_results`'s `csv.DictWriter`. -/
def githubHeaderLine : String :=
  "Username,Fullname,Bio,Number of public repositories,Number of followers"

/-- One CSV data row for a GitHub profile, columns in `fieldnames` order;
`None` values are written as empty fields, numbers via `str`. -/
def githubCsvRow (p : GitHubProfile) : String :=
  String.intercalate ","
    [csvField p.username, csvField (p.full_name.getD ""), csvField (p.bio.getD ""),
     csvField (toString p.public_repos), csvField (toString p.followers)]

/-- The full text `save_results` writes: header row, then one row per profile
in input order, each terminated by the csv module's default `\r\n`. -/
def save_resultsText (profiles : List GitHubProfile) : String :=
  githubHeaderLine ++ "\r\n" ++
    String.join (profiles.map fun p => githubCsvRow p ++ "\r\n")

/-! ## Theorems for the specification claims -/

/-- Claim C3: `from_api_response` is total (it is a function into a record type
whose six fields are non-optional `String`/`Int`, so every field is present and
non-null), and on a record with no `positions`, `educations`, `geoLocationName`,
`connectionsCount` (and no `occupation` to fall back on), the string fields are
`""` and `connections` is `0`. -/
theorem linkedin_sparse_record_defaults (p : RawLinkedInProfile)
    (hpos : p.positions = none) (hedu : p.educations = none)
    (hloc : p.geoLocationName = none) (hconn : p.connectionsCount = none)
    (hocc : p.occupation = none) :
    (LinkedInProfile.from_api_response p).position = "" ∧
    (LinkedInProfile.from_api_response p).company = "" ∧
    (LinkedInProfile.from_api_response p).location = "" ∧
    (LinkedInProfile.from_api_response p).connections = 0 ∧
    (LinkedInProfile.from_api_response p).education = "" := by
  simp [LinkedInProfile.from_api_response, LinkedInProfile.get_position,
    LinkedInProfile.get_company, LinkedInProfile.get_education,
    hpos, hedu, hloc, hconn, hocc]

/-- Witness for C3 at the fully sparse record. -/
theorem linkedin_sparse_record_defaults_witness :
    (LinkedInProfile.from_api_response ⟨none, none, none, none, none, none, none⟩).position = "" ∧
    (LinkedInProfile.from_api_response ⟨none, none, none, none, none, none, none⟩).company = "" ∧
    (LinkedInProfile.from_api_response ⟨none, none, none, none, none, none, none⟩).location = "" ∧
    (LinkedInProfile.from_api_response ⟨none, none, none, none, none, none, none⟩).connections = 0 ∧
    (LinkedInProfile.from_api_response ⟨none, none, none, none, none, none, none⟩).education = "" :=
  linkedin_sparse_record_defaults ⟨none, none, none, none, none, none, none⟩
    rfl rfl rfl rfl rfl

/-- Claim C10: a `positions`/`educations` key that is present but maps to `None`
or to an empty list is handled without raising (the truthiness guard short
circuits before indexing), the result is exactly what the key's absence gives,
`position` falls back to the top-level `occupation` (default `""`), and
`company`/`education` are `""`. -/
theorem linkedin_falsy_positions_educations (p : RawLinkedInProfile)
    (hpos : p.positions = some none ∨ p.positions = some (some []))
    (hedu : p.educations = some none ∨ p.educations = some (some [])) :
    LinkedInProfile.from_api_response p =
      LinkedInProfile.from_api_response { p with positions := none, educations := none } ∧
    (LinkedInProfile.from_api_response p).position = p.occupation.getD "" ∧
    (LinkedInProfile.from_api_response p).company = "" ∧
    (LinkedInProfile.from_api_response p).education = "" := by
  rcases hpos with hpos | hpos <;> rcases hedu with hedu | hedu <;>
    simp [LinkedInProfile.from_api_response, LinkedInProfile.get_position,
      LinkedInProfile.get_company, LinkedInProfile.get_education, hpos, hedu]

/-- Witness for C10: `positions` present as `None`, `educations` present as `[]`. -/
theorem linkedin_falsy_positions_educations_witness :
    LinkedInProfile.from_api_response
        ⟨some "Ada", none, some "CEO", none, none, some none, some (some [])⟩ =
      LinkedInProfile.from_api_response
        ⟨some "Ada", none, some "CEO", none, none, none, none⟩ ∧
    (LinkedInProfile.from_api_response
        ⟨some "Ada", none, some "CEO", none, none, some none, some (some [])⟩).position = "CEO" ∧
    (LinkedInProfile.from_api_response
        ⟨some "Ada", none, some "CEO", none, none, some none, some (some [])⟩).company = "" ∧
    (LinkedInProfile.from_api_response
        ⟨some "Ada", none, some "CEO", none, none, some none, some (some [])⟩).education = "" :=
  linkedin_falsy_positions_educations
    ⟨some "Ada", none, some "CEO", none, none, some none, some (some [])⟩
    (Or.inl rfl) (Or.inr rfl)

/-- Counterexample for C7 as stated: the code copies `connectionsCount`
verbatim, so a raw record carrying a negative count yields a negative
`connections`, refuting "non-negative for every raw record". -/
theorem linkedin_connections_negative_counterexample :
    (LinkedInProfile.from_api_response
      ⟨none, none, none, none, some (-1), none, none⟩).connections < 0 := by
  decide

/-- Claim C7 (amended): `connections` is never null (its type is a plain
integer) and equals the raw `connectionsCount` when present, else `0`; hence it
is non-negative whenever every present source value is non-negative — in
particular when the key is absent. -/
theorem linkedin_connections_nonneg (p : RawLinkedInProfile)
    (h : ∀ n : Int, p.connectionsCount = some n → 0 ≤ n) :
    0 ≤ (LinkedInProfile.from_api_response p).connections := by
  cases hc : p.connectionsCount with
  | none => simp [LinkedInProfile.from_api_response, hc]
  | some n =>
    simpa [LinkedInProfile.from_api_response, hc] using h n hc

/-- Witness for the amended C7 at a record with `connectionsCount = 5`. -/
theorem linkedin_connections_nonneg_witness :
    0 ≤ (LinkedInProfile.from_api_response
      ⟨none, none, none, none, some 5, none, none⟩).connections :=
  linkedin_connections_nonneg ⟨none, none, none, none, some 5, none, none⟩
    (by intro n hn; simp at hn; omega)

/-- Claim C4 (code divergence): with `config = None` after a failed load, the
initializer evaluates `config["actor_name"]`, raising `TypeError` past the
initializer (only `ApifyApiError` is caught) instead of degrading to the
`Unavailable` state. -/
theorem config_none_raises_type_error :
    launchActor none (.ok "dataset-id") = .error .typeError := rfl

/-- Claim C2 (code divergence): a rate-limited launch does yield the
`Unavailable` state (`actor_call`/`dataset_client` are `None`), but
`get_formatted_results` then evaluates `None.list_items`, so it raises
`AttributeError` instead of returning the empty JSON array `"[]"`. -/
theorem launch_failure_formatted_results :
    launchActor (some ⟨"curious_coder/linkedin-profile-scraper"⟩) (.apiError true) = .ok none ∧
    get_formatted_results none (fun _ => false) 100 5 = some (.error .attributeError) :=
  ⟨rfl, rfl⟩

/-- Claim C6 (code divergence): a transport-level failure on the very first
identifier makes the `except` handler read the never-assigned `response`
variable, raising `UnboundLocalError` to the caller; for HTTP-status failures
the claimed behaviour does hold — five identifiers with one 404 yield exactly
the four profiles of the others, in order. -/
theorem github_fetch_first_conn_raises :
    fetch_profiles [.conn] = .error .unboundLocalError ∧
    fetch_profiles
      [.resp 200 ⟨"a", none, none, 1, 1⟩,
       .resp 404 ⟨"missing", none, none, 0, 0⟩,
       .resp 200 ⟨"b", none, none, 2, 2⟩,
       .resp 200 ⟨"c", none, none, 3, 3⟩,
       .resp 200 ⟨"d", none, none, 4, 4⟩] =
      .ok [⟨"a", none, none, 1, 1⟩, ⟨"b", none, none, 2, 2⟩,
           ⟨"c", none, none, 3, 3⟩, ⟨"d", none, none, 4, 4⟩] := by
  exact ⟨rfl, rfl⟩

/-- Claim C8: on a successful (status 200) response the normalization is a
verbatim copy — `login`→`username`, `name`→`full_name`, `bio`→`bio`,
`public_repos`, `followers` — so an absent (`none`) `name` or `bio` stays the
distinct absent state, never the empty string. -/
theorem github_normalization_preserves_absence (d : RawGitHubUser) :
    fetch_profiles [.resp 200 d] =
      .ok [{ username := d.login, full_name := d.name, bio := d.bio,
             public_repos := d.public_repos, followers := d.followers }] := by
  simp [fetch_profiles, fetchProfilesAux]

/-- Claim C9: the CSV text written by `save_results` for the single test
profile is exactly the claimed header line, then the claimed data line, each
terminated by the csv module's `\r\n` row terminator (one data row per record,
in input order). -/
theorem github_save_results_csv_lines :
    save_resultsText [⟨"testuser", some "Test User", some "Test Bio", 10, 20⟩] =
      "Username,Fullname,Bio,Number of public repositories,Number of followers" ++ "\r\n" ++
      "testuser,Test User,Test Bio,10,20" ++ "\r\n" := by
  decide

/-- Helper for C1: with enough fuel and no failing requests, the pagination
loop started at `offset` with accumulator `acc` terminates and returns `acc`
followed by the rest of the dataset, in order. -/
theorem getAllProfilesAux_noFail (ds : List α) (ps : Nat) (hps : 0 < ps) :
    ∀ (fuel offset : Nat) (acc : List α) (reqs : Nat), ds.length - offset < fuel →
      ∃ n, getAllProfilesAux (some ds) (fun _ => false) ps fuel offset acc reqs
        = some (.ok (acc ++ ds.drop offset, n)) := by
  intro fuel
  induction fuel with
  | zero => intro offset acc reqs h; omega
  | succ fuel ih =>
    intro offset acc reqs h
    by_cases hend : ds.length ≤ offset
    · have hdrop : ds.drop offset = [] := List.drop_eq_nil_iff.mpr hend
      refine ⟨reqs + 1, ?_⟩
      simp [getAllProfilesAux, get_profiles_page, fetchPage, hdrop]
    · push_neg at hend
      cases hp : (ds.drop offset).take ps with
      | nil =>
        exfalso
        rcases List.take_eq_nil_iff.mp hp with h0 | hd
        · omega
        · have := List.drop_eq_nil_iff.mp hd; omega
      | cons a l =>
        obtain ⟨n, hn⟩ := ih (offset + ps) (acc ++ (a :: l)) (reqs + 1) (by omega)
        refine ⟨n, ?_⟩
        have hrest : (a :: l) ++ ds.drop (offset + ps) = ds.drop offset := by
          rw [← hp]; exact List.drop_take_append_drop ds offset ps
        simp only [getAllProfilesAux, get_profiles_page, fetchPage, if_neg, Bool.false_eq_true,
          not_false_eq_true, if_false, hp, List.isEmpty_cons, hn]
        rw [List.append_assoc, hrest]

/-- Claim C1: for every `pageSize > 0` and every finite dataset whose page
reads all succeed, `get_all_profiles` terminates within `length + 1` loop
iterations and returns exactly the dataset's items in original order; against
the empty dataset it returns `[]` after exactly one page request. -/
theorem get_all_profiles_returns_all (ds : List α) (pageSize : Nat) (hps : 0 < pageSize) :
    (∃ n, get_all_profiles (some ds) (fun _ => false) pageSize (ds.length + 1)
        = some (.ok (ds, n))) ∧
    get_all_profiles (some ([] : List α)) (fun _ => false) pageSize 1
        = some (.ok ([], 1)) := by
  constructor
  · obtain ⟨n, hn⟩ :=
      getAllProfilesAux_noFail ds pageSize hps (ds.length + 1) 0 [] 0 (by omega)
    exact ⟨n, by simpa using hn⟩
  · simp [get_all_profiles, getAllProfilesAux, get_profiles_page, fetchPage]

/-- Witness for C1 on the dataset `[1, 2, 3]` with page size 2. -/
theorem get_all_profiles_returns_all_witness :
    (∃ n, get_all_profiles (some [1, 2, 3]) (fun _ => false) 2 4
        = some (.ok ([1, 2, 3], n))) ∧
    get_all_profiles (some ([] : List Nat)) (fun _ => false) 2 1
        = some (.ok ([], 1)) :=
  get_all_profiles_returns_all [1, 2, 3] 2 (by decide)

/-- Helper for C5: when the request at offset `j * ps` fails (and only it),
the loop runs the `j` full pages before it, then treats the failing page as
empty and stops, returning exactly those pages. -/
theorem getAllProfilesAux_failAt (ds : List α) (ps j : Nat) (hps : 0 < ps)
    (hj : j * ps < ds.length) :
    ∀ (fuel i : Nat) (acc : List α) (reqs : Nat), i ≤ j → j - i < fuel →
      getAllProfilesAux (some ds) (fun o => decide (o = j * ps)) ps fuel (i * ps) acc reqs
        = some (.ok (acc ++ (ds.drop (i * ps)).take ((j - i) * ps), reqs + (j - i) + 1)) := by
  intro fuel
  induction fuel with
  | zero => intro i acc reqs hij hlt; omega
  | succ fuel ih =>
    intro i acc reqs hij hlt
    rcases eq_or_lt_of_le hij with rfl | hij'
    · simp [getAllProfilesAux, get_profiles_page, fetchPage]
    · have hmul : i * ps < j * ps := mul_lt_mul_of_pos_right hij' hps
      have hne : ¬ (i * ps = j * ps) := Nat.ne_of_lt hmul
      have hlen : i * ps < ds.length := lt_trans hmul hj
      cases hp : (ds.drop (i * ps)).take ps with
      | nil =>
        exfalso
        rcases List.take_eq_nil_iff.mp hp with h0 | hd
        · omega
        · have := List.drop_eq_nil_iff.mp hd; omega
      | cons a l =>
        have step := ih (i + 1) (acc ++ (a :: l)) (reqs + 1) (by omega) (by omega)
        have hoff : i * ps + ps = (i + 1) * ps := by ring
        have hsplit : (a :: l) ++ (ds.drop ((i + 1) * ps)).take ((j - (i + 1)) * ps)
            = (ds.drop (i * ps)).take ((j - i) * ps) := by
          have hji : (j - i) * ps = ps + (j - (i + 1)) * ps := by
            have : j - i = (j - (i + 1)) + 1 := by omega
            rw [this]; ring
          rw [← hp, hji, List.take_add, List.drop_drop, hoff]
        have hcount : reqs + 1 + (j - (i + 1)) + 1 = reqs + (j - i) + 1 := by omega
        simp only [getAllProfilesAux, get_profiles_page, fetchPage,
          decide_eq_false hne, Bool.false_eq_true, if_false, hp, List.isEmpty_cons]
        rw [hoff, step, hcount, List.append_assoc, hsplit]

/-- Claim C5: a page request that fails with a transient fetch error (here the
request at offset `j * ps`, within the dataset) is treated as an empty page:
nothing is raised (the loop still returns a value), there is no retry (the
failing request is the last, the `j + 1`-st, page request), the loop
terminates, and the items of the earlier pages are returned. -/
theorem get_all_profiles_failure_truncates (ds : List α) (ps j : Nat)
    (hps : 0 < ps) (hj : j * ps < ds.length) :
    get_all_profiles (some ds) (fun o => decide (o = j * ps)) ps (j + 1)
      = some (.ok (ds.take (j * ps), j + 1)) := by
  have h := getAllProfilesAux_failAt ds ps j hps hj (j + 1) 0 [] 0 (by omega) (by omega)
  simpa using h

/-- Witness for C5: dataset `[10, 20, 30]`, page size 1, second request
(offset 1) fails; the loop returns the first page `[10]` after 2 requests. -/
theorem get_all_profiles_failure_truncates_witness :
    get_all_profiles (some [10, 20, 30]) (fun o => decide (o = 1)) 1 2
      = some (.ok ([10], 2)) :=
  get_all_profiles_failure_truncates [10, 20, 30] 1 1 (by decide) (by decide)
